import Mathlib

set_option maxRecDepth 4000

namespace MarinadeValueParser

/-
Shallow embedding of the marinade-value-parser repository (src/src/lib.rs and
src/src/accounts/instructions.rs).  Bytes are modelled as `Nat` values below 256,
u64 fields as `Nat` with explicit 2^64 bounds where overflow matters, and Rust
panics (unchecked u64 subtraction underflow in debug builds, division by zero)
as `none` / an explicit `panic` constructor.
-/

/-! ### SHA-256 (model of the external `sha2` crate used by
`get_instruction_discriminator`), following FIPS 180-4. -/

/-- 2^32, the modulus of 32-bit words. -/
def w32 : Nat := 4294967296

/-- Addition modulo 2^32. -/
def add32 (a b : Nat) : Nat := (a + b) % w32

/-- Right rotation of a 32-bit word by `n` bits. -/
def rotr32 (n x : Nat) : Nat := ((x >>> n) ||| (x <<< (32 - n))) % w32

/-- SHA-256 message-schedule sigma 0. -/
def smallSigma0 (x : Nat) : Nat := (rotr32 7 x) ^^^ (rotr32 18 x) ^^^ (x >>> 3)

/-- SHA-256 message-schedule sigma 1. -/
def smallSigma1 (x : Nat) : Nat := (rotr32 17 x) ^^^ (rotr32 19 x) ^^^ (x >>> 10)

/-- SHA-256 compression Sigma 0. -/
def bigSigma0 (x : Nat) : Nat := (rotr32 2 x) ^^^ (rotr32 13 x) ^^^ (rotr32 22 x)

/-- SHA-256 compression Sigma 1. -/
def bigSigma1 (x : Nat) : Nat := (rotr32 6 x) ^^^ (rotr32 11 x) ^^^ (rotr32 25 x)

/-- The 64 SHA-256 round constants of FIPS 180-4 (decimal rendering). -/
def K256 : List Nat := [
  1116352408, 1899447441, 3049323471, 3921009573, 961987163,
  1508970993, 2453635748, 2870763221, 3624381080, 310598401,
  607225278, 1426881987, 1925078388, 2162078206, 2614888103,
  3248222580, 3835390401, 4022224774, 264347078, 604807628,
  770255983, 1249150122, 1555081692, 1996064986, 2554220882,
  2821834349, 2952996808, 3210313671, 3336571891, 3584528711,
  113926993, 338241895, 666307205, 773529912, 1294757372,
  1396182291, 1695183700, 1986661051, 2177026350, 2456956037,
  2730485921, 2820302411, 3259730800, 3345764771, 3516065817,
  3600352804, 4094571909, 275423344, 430227734, 506948616,
  659060556, 883997877, 958139571, 1322822218, 1537002063,
  1747873779, 1955562222, 2024104815, 2227730452, 2361852424,
  2428436474, 2756734187, 3204031479, 3329325298]

/-- The digest state: eight 32-bit words. -/
structure Hash8 where
  h0 : Nat
  h1 : Nat
  h2 : Nat
  h3 : Nat
  h4 : Nat
  h5 : Nat
  h6 : Nat
  h7 : Nat
  deriving DecidableEq, Repr

/-- The SHA-256 initial hash value (decimal rendering). -/
def initH : Hash8 :=
  ⟨1779033703, 3144134277, 1013904242, 2773480762,
   1359893119, 2600822924, 528734635, 1541459225⟩

/-- The eight working registers of the compression function. -/
structure Regs where
  a : Nat
  b : Nat
  c : Nat
  d : Nat
  e : Nat
  f : Nat
  g : Nat
  h : Nat
  deriving DecidableEq, Repr

/-- One round of the SHA-256 compression function on word `w` with constant `k`. -/
def compressStep (r : Regs) (wk : Nat × Nat) : Regs :=
  let s1 := bigSigma1 r.e
  let chv := (r.e &&& r.f) ^^^ ((r.e ^^^ 4294967295) &&& r.g)
  let temp1 := (r.h + s1 + chv + wk.2 + wk.1) % w32
  let s0 := bigSigma0 r.a
  let majv := (r.a &&& r.b) ^^^ (r.a &&& r.c) ^^^ (r.b &&& r.c)
  let temp2 := (s0 + majv) % w32
  ⟨(temp1 + temp2) % w32, r.a, r.b, r.c, (r.d + temp1) % w32, r.e, r.f, r.g⟩

/-- Group a byte list into big-endian 32-bit words (four bytes per word). -/
def bytesToWordsBE : List Nat → List Nat
  | a :: b :: c :: d :: rest => ((((a <<< 8) ||| b) <<< 8 ||| c) <<< 8 ||| d) :: bytesToWordsBE rest
  | _ => []

/-- Extend the 16-word block to the 64-word message schedule (`n` words to append). -/
def extendWords : Nat → Array Nat → Array Nat
  | 0, arr => arr
  | n + 1, arr =>
    let i := arr.size
    let w := (smallSigma1 (arr.getD (i - 2) 0) + arr.getD (i - 7) 0
              + smallSigma0 (arr.getD (i - 15) 0) + arr.getD (i - 16) 0) % w32
    extendWords n (arr.push w)

/-- The 64-word message schedule of one 64-byte block. -/
def messageSchedule (block : List Nat) : List Nat :=
  (extendWords 48 (bytesToWordsBE block).toArray).toList

/-- Compress one 64-byte block into the running hash state. -/
def compressBlock (hsh : Hash8) (block : List Nat) : Hash8 :=
  let ws := messageSchedule block
  let r0 : Regs := ⟨hsh.h0, hsh.h1, hsh.h2, hsh.h3, hsh.h4, hsh.h5, hsh.h6, hsh.h7⟩
  let r := (ws.zip K256).foldl compressStep r0
  ⟨add32 hsh.h0 r.a, add32 hsh.h1 r.b, add32 hsh.h2 r.c, add32 hsh.h3 r.d,
   add32 hsh.h4 r.e, add32 hsh.h5 r.f, add32 hsh.h6 r.g, add32 hsh.h7 r.h⟩

/-- Big-endian byte serialization of `n` into `len` bytes. -/
def natToBytesBE (len n : Nat) : List Nat :=
  (List.range len).map (fun i => (n >>> (8 * (len - 1 - i))) &&& 255)

/-- SHA-256 padding: append 0x80, zeros to 56 mod 64, then the 64-bit big-endian bit length. -/
def padMessage (msg : List Nat) : List Nat :=
  let padZeros := (119 - msg.length % 64) % 64
  msg ++ [0x80] ++ List.replicate padZeros 0 ++ natToBytesBE 8 (8 * msg.length)

/-- Split a byte list into 64-byte chunks; the fuel argument bounds the recursion
(structural recursion on the fuel keeps the function kernel-reducible). -/
def chunks64Aux : Nat → List Nat → List (List Nat)
  | 0, _ => []
  | _ + 1, [] => []
  | fuel + 1, l => l.take 64 :: chunks64Aux fuel (l.drop 64)

/-- Split a byte list into 64-byte chunks. -/
def chunks64 (l : List Nat) : List (List Nat) := chunks64Aux l.length l

/-- SHA-256 of a byte list, as the 32-byte big-endian digest. -/
def sha256 (msg : List Nat) : List Nat :=
  let hsh := (chunks64 (padMessage msg)).foldl compressBlock initH
  natToBytesBE 4 hsh.h0 ++ natToBytesBE 4 hsh.h1 ++ natToBytesBE 4 hsh.h2 ++ natToBytesBE 4 hsh.h3
  ++ natToBytesBE 4 hsh.h4 ++ natToBytesBE 4 hsh.h5 ++ natToBytesBE 4 hsh.h6 ++ natToBytesBE 4 hsh.h7

/-- FIPS 180-4 test vector: the digest of the empty message (bytes in decimal). -/
theorem sha256_empty_vector :
    sha256 [] = [227, 176, 196, 66, 152, 252, 28, 20, 154, 251, 244, 200, 153, 111,
      185, 36, 39, 174, 65, 228, 100, 155, 147, 76, 164, 149, 153, 27, 120, 82,
      184, 85] := by decide

/-- FIPS 180-4 test vector: the digest of "abc" (bytes in decimal). -/
theorem sha256_abc_vector :
    sha256 [97, 98, 99] = [186, 120, 22, 191, 143, 1, 207, 234, 65, 65, 64, 222, 93,
      174, 34, 35, 176, 3, 97, 163, 150, 23, 122, 156, 180, 16, 255, 97, 242, 0,
      21, 173] := by decide

/-! ### Constants and the discriminator registry (src/src/lib.rs lines 16-47). -/

/-- The UTF-8 bytes of a string, as `Nat` values (model of Rust `str::as_bytes`). -/
def utf8Bytes (s : String) : List Nat := s.toUTF8.data.toList.map (fun b => b.toNat)

/-- Addresses are kept as their base58 string form, which is how the source compares
them (a `Pubkey` parsed from a fixed string constant). -/
abbrev PubkeyStr := String

/-- src/src/lib.rs line 16. -/
def SOL_MINT_PUBKEY : PubkeyStr := "So11111111111111111111111111111111111111112"

/-- src/src/lib.rs line 17. -/
def MSOL_MINT_PUBKEY : PubkeyStr := "mSoLzYCxHdYgdzU16g5QSh3i5K3z3KZK1iNKhS3nZF"

/-- src/src/lib.rs line 20: the Marinade program pubkey. -/
def MARINADE_PROGRAM_KEY : PubkeyStr := "MR2LqxoSbw831bNy68utpu5n4YqBH3AzDmddkgk9LQv"

/-- src/src/lib.rs line 22: the Marinade staking program state account pubkey. -/
def MARINADE_STATE_PUBKEY : PubkeyStr := "8szGkuLTAux9XMgZ2vtY39jVSowEcpBfFfD8hXSEqdGC"

/-- src/src/lib.rs line 25: the hardcoded literal deposit discriminator. -/
def DEPOSIT_DISCRIMINATOR : List Nat := [0xf2, 0x23, 0xc6, 0x89, 0x52, 0xe1, 0xf2, 0xb6]

/-- src/src/lib.rs lines 72-79: the first 8 bytes of the SHA-256 digest of the
instruction name's UTF-8 bytes. -/
def get_instruction_discriminator (name : String) : List Nat :=
  (sha256 (utf8Bytes name)).take 8

/-- src/src/lib.rs lines 28-47: the curated list of state-modifying discriminators. -/
def STATE_MODIFYING_DISCRIMINATORS : List (List Nat) := [
  DEPOSIT_DISCRIMINATOR,
  get_instruction_discriminator "initialize",
  get_instruction_discriminator "change_authority",
  get_instruction_discriminator "add_validator",
  get_instruction_discriminator "remove_validator",
  get_instruction_discriminator "set_validator_score",
  get_instruction_discriminator "config_validator",
  get_instruction_discriminator "deposit_stake_account",
  get_instruction_discriminator "liquid_unstake",
  get_instruction_discriminator "add_liquidity",
  get_instruction_discriminator "remove_liquidity",
  get_instruction_discriminator "set_lp_params",
  get_instruction_discriminator "configure_delegated_stake",
  get_instruction_discriminator "order_unstake",
  get_instruction_discriminator "claim"]

/-- Cross-check of the embedding against the `sha2` crate: the first 8 digest bytes
of "global:deposit" (the Anchor-style name) are exactly the hardcoded
`DEPOSIT_DISCRIMINATOR` literal. -/
theorem deposit_literal_is_global_deposit_hash :
    get_instruction_discriminator "global:deposit" = DEPOSIT_DISCRIMINATOR := by decide

/-! ### Transaction model and the relevance classifier (src/src/lib.rs lines 81-123). -/

/-- A compiled instruction: its program-id index into the message's account keys
and its raw byte payload (`solana_sdk::instruction::CompiledInstruction`). -/
structure CompiledInstruction where
  program_id_index : Nat
  data : List Nat
  deriving DecidableEq, Repr

/-- A decoded versioned message: the static account keys carried in the message
itself, the addresses loaded through on-chain address-lookup tables (empty for
legacy messages), and the compiled instructions. -/
structure DecodedMessage where
  static_account_keys : List PubkeyStr
  loaded_addresses : List PubkeyStr
  instructions : List CompiledInstruction
  deriving DecidableEq, Repr

/-- The full account-key list of a message: static keys extended by the
lookup-table loaded addresses. -/
def DecodedMessage.account_keys (m : DecodedMessage) : List PubkeyStr :=
  m.static_account_keys ++ m.loaded_addresses

/-- A decoded transaction: signatures plus message. -/
structure DecodedTransaction where
  signatures : List String
  message : DecodedMessage
  deriving DecidableEq, Repr

/-- `EncodedConfirmedTransactionWithStatusMeta` as the classifier consumes it:
the result of `tx.transaction.transaction.decode()` (`none` when decoding fails)
and the optional block time. -/
structure EncodedConfirmedTx where
  decoded : Option DecodedTransaction
  block_time : Option Int
  deriving DecidableEq, Repr

/-- The per-instruction test inside the loop of `does_tx_affect_msol_value`
(src/src/lib.rs lines 92-114): resolve the program id against the STATIC account
keys only (`instruction.program_id(decoded_transaction.message.static_account_keys())`),
then require a payload of at least 8 bytes whose first 8 bytes equal
`DEPOSIT_DISCRIMINATOR` or appear in `STATE_MODIFYING_DISCRIMINATORS`.
An out-of-range `program_id_index` (possible only when the program address lives in
the lookup-table section of a v0 message) makes the Rust code panic on the slice
index; the model returns `false` there, which like the panic never reports a match. -/
def instructionMatches (static_keys : List PubkeyStr) (ix : CompiledInstruction) : Bool :=
  match static_keys.get? ix.program_id_index with
  | none => false
  | some pid =>
    if pid = MARINADE_PROGRAM_KEY then
      if 8 ≤ ix.data.length then
        let ix_discriminator := ix.data.take 8
        ix_discriminator = DEPOSIT_DISCRIMINATOR
          || STATE_MODIFYING_DISCRIMINATORS.contains ix_discriminator
      else false
    else false

/-- src/src/lib.rs lines 81-123: a transaction affects the mSOL value when it
decodes and some instruction matches; a transaction that fails to decode is
reported as not relevant. -/
def does_tx_affect_msol_value (tx : EncodedConfirmedTx) : Bool :=
  match tx.decoded with
  | none => false
  | some dtx => dtx.message.instructions.any (instructionMatches dtx.message.static_account_keys)

/-! ### Marinade state and the exchange-rate arithmetic (src/src/lib.rs lines 144-145).
The `MarinadeState` account layout lives in `src/accounts/marinade.rs`, which is not
part of the sources; only the five u64 counters that `analyze_transaction` reads are
modelled, as unbounded `Nat` with explicit 2^64 checks in the arithmetic. -/

/-- 2^64, the modulus of u64 arithmetic. -/
def U64_MOD : Nat := 18446744073709551616

/-- The `validator_system` sub-record, of which only `total_active_balance` is read. -/
structure ValidatorSystem where
  total_active_balance : Nat
  deriving DecidableEq, Repr

/-- The decoded Marinade state fields read by `analyze_transaction`. -/
structure MarinadeState where
  validator_system : ValidatorSystem
  emergency_cooling_down : Nat
  available_reserve_balance : Nat
  circulating_ticket_balance : Nat
  msol_supply : Nat
  deriving DecidableEq, Repr

/-- u64 addition; `none` models the overflow panic of a Rust debug build. -/
def checkedAddU64 (a b : Nat) : Option Nat :=
  if a + b < U64_MOD then some (a + b) else none

/-- u64 subtraction; `none` models the underflow panic of a Rust debug build
(a release build would instead wrap to `a - b + 2^64`). -/
def checkedSubU64 (a b : Nat) : Option Nat :=
  if b ≤ a then some (a - b) else none

/-- u64 division; `none` models the division-by-zero panic (in every build profile). -/
def checkedDivU64 (a b : Nat) : Option Nat :=
  if b = 0 then none else some (a / b)

/-- src/src/lib.rs line 144: `total_active_balance + emergency_cooling_down +
available_reserve_balance - circulating_ticket_balance`, unchecked u64 arithmetic;
`none` models a panic. -/
def computeSolAmount (s : MarinadeState) : Option Nat := do
  let x ← checkedAddU64 s.validator_system.total_active_balance s.emergency_cooling_down
  let y ← checkedAddU64 x s.available_reserve_balance
  checkedSubU64 y s.circulating_ticket_balance

/-- src/src/lib.rs lines 144-145: the mSOL value `sol_amount / msol_supply`;
`none` models a panic (underflow/overflow upstream, or division by zero). -/
def computeMsolValue (s : MarinadeState) : Option Nat := do
  let sol ← computeSolAmount s
  checkedDivU64 sol s.msol_supply

/-- src/src/lib.rs lines 48-56: the output record. -/
structure MintUnderlying where
  block_time : Int
  msol_value : Nat
  mint_pubkey : String
  platform_program_pubkey : String
  mints : List String
  total_underlying_amounts : List Nat
  deriving DecidableEq, Repr

/-- Outcome of `analyze_transaction`: a Rust panic, `None`, or `Some snapshot`. -/
inductive AnalyzeResult where
  | panic
  | noResult
  | snapshot (m : MintUnderlying)
  deriving DecidableEq, Repr

/-- src/src/lib.rs lines 125-165. The RPC fetch plus Borsh decode of the Marinade
state account (`find_and_parse_marinade_state`, an external call through
`RpcClient` followed by `MarinadeState::deserialize`) is passed in as the
`fetched` oracle: `none` when the fetch or the decode failed.  The function
returns `None` (`noResult`) when the transaction is classified as not relevant
(in that branch the source merely logs the first signature before returning),
when `fetched` is `none` (the `?` on `find_and_parse_marinade_state`), or when
`block_time` is absent; the unchecked arithmetic can panic.
`Pubkey::from_str` on the two hardcoded base58 constants always succeeds. -/
def analyze_transaction (fetched : Option MarinadeState) (tx : EncodedConfirmedTx) :
    AnalyzeResult :=
  if does_tx_affect_msol_value tx then
    match fetched with
    | none => .noResult
    | some post_state =>
      match computeSolAmount post_state with
      | none => .panic
      | some sol_amount =>
        match checkedDivU64 sol_amount post_state.msol_supply with
        | none => .panic
        | some msol_value =>
          match tx.block_time with
          | none => .noResult
          | some bt =>
            .snapshot
              { block_time := bt
                msol_value := msol_value
                mint_pubkey := MSOL_MINT_PUBKEY
                platform_program_pubkey := MARINADE_STATE_PUBKEY
                mints := [SOL_MINT_PUBKEY]
                total_underlying_amounts := [sol_amount] }
  else .noResult

/-! ### Concrete fixtures used by witnesses and counterexamples. -/

/-- A decoded transaction whose single instruction targets the Marinade program
(static key 0) with the literal deposit discriminator as payload. -/
def relevantDtx : DecodedTransaction :=
  ⟨["sig1"], ⟨[MARINADE_PROGRAM_KEY], [], [⟨0, DEPOSIT_DISCRIMINATOR⟩]⟩⟩

/-- A relevant transaction with a block time. -/
def relevantTx : EncodedConfirmedTx := ⟨some relevantDtx, some 5⟩

/-- A v0-style transaction whose Marinade-program address is reachable only through
the lookup-table loaded addresses (index 1 = first loaded address), not the static list. -/
def lookupTx : EncodedConfirmedTx :=
  ⟨some ⟨["sig2"], ⟨["SomeOtherKey11111111111111111111111111111111"],
    [MARINADE_PROGRAM_KEY], [⟨1, DEPOSIT_DISCRIMINATOR⟩]⟩⟩, some 7⟩

/-- The state of the spec's arithmetic-exactness property:
active=100, cooling=20, reserve=30, tickets=10, supply=50. -/
def exactState : MarinadeState := ⟨⟨100⟩, 20, 30, 10, 50⟩

/-- A state with zero mSOL supply. -/
def zeroSupplyState : MarinadeState := ⟨⟨100⟩, 20, 30, 10, 0⟩

/-- A state whose ticket balance exceeds the sum of the three balances. -/
def underflowState : MarinadeState := ⟨⟨0⟩, 0, 0, 1, 1⟩

/-! ### Claims. -/

/-- Evaluation of the registry to byte literals (each entry the first 8 SHA-256
digest bytes of its name, cross-checked against an independent SHA-256
implementation), so that later membership tests need not re-run the hash. -/
theorem registry_eval :
    STATE_MODIFYING_DISCRIMINATORS = [
      [0xf2, 0x23, 0xc6, 0x89, 0x52, 0xe1, 0xf2, 0xb6],
      [0x47, 0x0e, 0xbe, 0x82, 0xf7, 0x55, 0x27, 0x52],
      [0x26, 0x1a, 0xb8, 0x57, 0x44, 0xf9, 0xd2, 0xc7],
      [0xfc, 0x15, 0xf1, 0xbe, 0x80, 0x15, 0x51, 0x76],
      [0xff, 0x61, 0xff, 0x26, 0x25, 0x13, 0xbc, 0xd1],
      [0xf0, 0x70, 0x57, 0x8b, 0xf2, 0x08, 0x98, 0xed],
      [0xc3, 0x74, 0x8c, 0x61, 0xff, 0xda, 0x90, 0xf6],
      [0x84, 0xa5, 0x61, 0xff, 0xf2, 0xf1, 0x37, 0x27],
      [0x79, 0x48, 0xa0, 0x4f, 0xa4, 0x7b, 0xf1, 0x30],
      [0x07, 0x06, 0x59, 0xcd, 0x05, 0x0c, 0x38, 0x93],
      [0x26, 0xc7, 0x8d, 0xb1, 0x99, 0xd6, 0x79, 0x7c],
      [0x89, 0xf5, 0x03, 0xd7, 0xbe, 0x1f, 0x79, 0x9b],
      [0x34, 0x2a, 0xd7, 0xb4, 0x38, 0x4a, 0x07, 0x99],
      [0x4a, 0xe4, 0xf9, 0x0d, 0x7f, 0xbe, 0x64, 0x55],
      [0xdd, 0x1b, 0x3c, 0x31, 0x2c, 0xf7, 0xd8, 0x16]] := by
  decide

/-- C8: for ProtocolState{active=100, cooling=20, reserve=30, tickets=10, supply=50}
the backing amount is 140 and the price is the truncation 140/50 = 2. -/
theorem claim_C8_arithmetic_exactness :
    computeSolAmount exactState = some 140 ∧ computeMsolValue exactState = some 2 := by
  decide

/-- C10: the hardcoded literal `DEPOSIT_DISCRIMINATOR` differs from the hash-derived
tag `get_instruction_discriminator "deposit"`; the literal is in the registry while
the hash-derived value is not, so deposit recognition rests on the literal alone. -/
theorem claim_C10_deposit_literal_not_hash_derived :
    DEPOSIT_DISCRIMINATOR ≠ get_instruction_discriminator "deposit" ∧
    DEPOSIT_DISCRIMINATOR ∈ STATE_MODIFYING_DISCRIMINATORS ∧
    get_instruction_discriminator "deposit" ∉ STATE_MODIFYING_DISCRIMINATORS := by
  rw [registry_eval]
  decide

/-- C5: the registry carries entries for deposit (the literal), stake-account deposit,
liquid unstake, add/remove liquidity, order-unstake, claim, validator add/remove/configure
and initialization, but NO entry for stake-account withdrawal: neither the repository's
own naming scheme (`get_instruction_discriminator "withdraw_stake_account"`) nor the
Anchor-style `"global:withdraw_stake_account"` tag is a member. -/
theorem claim_C5_registry_missing_withdraw_stake_account :
    DEPOSIT_DISCRIMINATOR ∈ STATE_MODIFYING_DISCRIMINATORS ∧
    get_instruction_discriminator "deposit_stake_account" ∈ STATE_MODIFYING_DISCRIMINATORS ∧
    get_instruction_discriminator "liquid_unstake" ∈ STATE_MODIFYING_DISCRIMINATORS ∧
    get_instruction_discriminator "add_liquidity" ∈ STATE_MODIFYING_DISCRIMINATORS ∧
    get_instruction_discriminator "remove_liquidity" ∈ STATE_MODIFYING_DISCRIMINATORS ∧
    get_instruction_discriminator "order_unstake" ∈ STATE_MODIFYING_DISCRIMINATORS ∧
    get_instruction_discriminator "claim" ∈ STATE_MODIFYING_DISCRIMINATORS ∧
    get_instruction_discriminator "add_validator" ∈ STATE_MODIFYING_DISCRIMINATORS ∧
    get_instruction_discriminator "remove_validator" ∈ STATE_MODIFYING_DISCRIMINATORS ∧
    get_instruction_discriminator "config_validator" ∈ STATE_MODIFYING_DISCRIMINATORS ∧
    get_instruction_discriminator "initialize" ∈ STATE_MODIFYING_DISCRIMINATORS ∧
    get_instruction_discriminator "withdraw_stake_account" ∉ STATE_MODIFYING_DISCRIMINATORS ∧
    get_instruction_discriminator "global:withdraw_stake_account" ∉ STATE_MODIFYING_DISCRIMINATORS := by
  rw [registry_eval]
  decide

/-- C2 counterexample: on a state with zero supply the computation does not return
any reported error value — it panics (division by zero, modelled as `none`); there is
no ComputationError anywhere in the code (`analyze_transaction` returns a bare Option). -/
theorem claim_C2_counterexample :
    zeroSupplyState.msol_supply = 0 ∧ computeMsolValue zeroSupplyState = none ∧
    analyze_transaction (some zeroSupplyState) relevantTx = .panic := by
  decide

/-- C2 amended: a zero mSOL supply always makes the exchange-rate computation panic
with an integer division by zero (modelled as `none`); no error value is produced
and no infinite/NaN value can arise (the arithmetic is integral throughout). -/
theorem claim_C2_zero_supply_panics (s : MarinadeState) (h : s.msol_supply = 0) :
    computeMsolValue s = none := by
  unfold computeMsolValue checkedDivU64
  cases hc : computeSolAmount s <;> simp [hc, h]

/-- C2 witness: the amended statement instantiated at the zero-supply fixture. -/
theorem claim_C2_zero_supply_panics_witness :
    computeMsolValue zeroSupplyState = none :=
  claim_C2_zero_supply_panics zeroSupplyState rfl

/-- C3 counterexample: when the ticket balance exceeds the backing sum the
subtraction is not reported as any error value — the code panics (debug-build
underflow, modelled as `none`), and the panic escapes `analyze_transaction`. -/
theorem claim_C3_counterexample :
    underflowState.validator_system.total_active_balance
        + underflowState.emergency_cooling_down
        + underflowState.available_reserve_balance
      < underflowState.circulating_ticket_balance ∧
    computeSolAmount underflowState = none ∧
    analyze_transaction (some underflowState) relevantTx = .panic := by
  decide

/-- C3 amended: the backing amount is the plain u64 subtraction
`active + cooling + reserve - tickets` when it does not underflow; an underflowing
subtraction panics in a debug build (modelled as `none`) — it is never reported as
a ComputationError, a type absent from the code. -/
theorem claim_C3_sub_unchecked (s : MarinadeState)
    (h : s.validator_system.total_active_balance + s.emergency_cooling_down
          + s.available_reserve_balance < U64_MOD) :
    computeSolAmount s =
      if s.circulating_ticket_balance ≤
          s.validator_system.total_active_balance + s.emergency_cooling_down
            + s.available_reserve_balance
      then some (s.validator_system.total_active_balance + s.emergency_cooling_down
            + s.available_reserve_balance - s.circulating_ticket_balance)
      else none := by
  have h1 : s.validator_system.total_active_balance + s.emergency_cooling_down < U64_MOD := by
    omega
  unfold computeSolAmount checkedAddU64 checkedSubU64
  simp only [h1, if_pos, h]
  split <;> simp_all

/-- C3 witness: the amended statement instantiated at the exactness fixture. -/
theorem claim_C3_sub_unchecked_witness :
    computeSolAmount exactState =
      if exactState.circulating_ticket_balance ≤
          exactState.validator_system.total_active_balance + exactState.emergency_cooling_down
            + exactState.available_reserve_balance
      then some (exactState.validator_system.total_active_balance
            + exactState.emergency_cooling_down
            + exactState.available_reserve_balance - exactState.circulating_ticket_balance)
      else none :=
  claim_C3_sub_unchecked exactState (by decide)

/-- Unfolding of the per-instruction test into the three spec-level conditions
(program id resolved from the static keys, payload of at least 8 bytes, first
8 bytes in the registry); the code's separate early check against
`DEPOSIT_DISCRIMINATOR` is absorbed by the registry membership because the
literal is the registry's first entry. -/
theorem instructionMatches_iff (keys : List PubkeyStr) (ix : CompiledInstruction) :
    instructionMatches keys ix = true ↔
      keys.get? ix.program_id_index = some MARINADE_PROGRAM_KEY ∧
      8 ≤ ix.data.length ∧ ix.data.take 8 ∈ STATE_MODIFYING_DISCRIMINATORS := by
  have hdep : DEPOSIT_DISCRIMINATOR ∈ STATE_MODIFYING_DISCRIMINATORS := by
    unfold STATE_MODIFYING_DISCRIMINATORS
    exact List.mem_cons_self _ _
  unfold instructionMatches
  cases hg : keys.get? ix.program_id_index with
  | none => simp
  | some pid =>
    by_cases hp : pid = MARINADE_PROGRAM_KEY
    · subst hp
      by_cases hl : 8 ≤ ix.data.length
      · simp only [hl, if_true, eq_self_iff_true, Option.some.injEq, true_and,
          Bool.or_eq_true, decide_eq_true_eq, List.contains, List.elem_iff]
        exact ⟨fun h => h.elim (fun hd => hd ▸ hdep) id, Or.inr⟩
      · simp [hl]
    · simp [hp]

/-- C1: for a transaction that decodes, `does_tx_affect_msol_value` is true iff some
instruction resolves (against the static account keys) to the Marinade program,
carries at least 8 payload bytes, and has its first 8 bytes in the registry.
The in-bounds hypothesis restricts to the domain where the model agrees with the
Rust code at every input: an out-of-range `program_id_index` would make the Rust
slice index panic instead of returning. -/
theorem claim_C1_relevance_iff (tx : EncodedConfirmedTx) (dtx : DecodedTransaction)
    (hdec : tx.decoded = some dtx)
    (_hidx : ∀ ix ∈ dtx.message.instructions,
      ix.program_id_index < dtx.message.static_account_keys.length) :
    does_tx_affect_msol_value tx = true ↔
      ∃ ix ∈ dtx.message.instructions,
        dtx.message.static_account_keys.get? ix.program_id_index = some MARINADE_PROGRAM_KEY ∧
        8 ≤ ix.data.length ∧ ix.data.take 8 ∈ STATE_MODIFYING_DISCRIMINATORS := by
  unfold does_tx_affect_msol_value
  rw [hdec, List.any_eq_true]
  constructor
  · rintro ⟨ix, hmem, hm⟩
    exact ⟨ix, hmem, (instructionMatches_iff _ _).mp hm⟩
  · rintro ⟨ix, hmem, hc⟩
    exact ⟨ix, hmem, (instructionMatches_iff _ _).mpr hc⟩

/-- C1 witness: the equivalence instantiated at the concrete relevant transaction. -/
theorem claim_C1_relevance_iff_witness :
    does_tx_affect_msol_value relevantTx = true ↔
      ∃ ix ∈ relevantDtx.message.instructions,
        relevantDtx.message.static_account_keys.get? ix.program_id_index
            = some MARINADE_PROGRAM_KEY ∧
        8 ≤ ix.data.length ∧ ix.data.take 8 ∈ STATE_MODIFYING_DISCRIMINATORS :=
  claim_C1_relevance_iff relevantTx relevantDtx rfl (by decide)

/-- C4 counterexample: with the state fetch/decode failing (`none` oracle) on a
relevant transaction that has a block time, `analyze_transaction` returns the silent
absent result — absence is NOT reserved for not-relevant or missing-block-time, and
no DecodeError is surfaced (the function has no error channel at all). -/
theorem claim_C4_counterexample :
    ¬ (analyze_transaction none relevantTx = .noResult →
        does_tx_affect_msol_value relevantTx = false ∨ relevantTx.block_time = none) := by
  decide

/-- C4 amended: whenever the Marinade-state fetch or decode fails, a relevant
transaction yields `None` from `analyze_transaction` — the same silent absence as a
not-relevant transaction. -/
theorem claim_C4_fetch_failure_silent (tx : EncodedConfirmedTx)
    (h : does_tx_affect_msol_value tx = true) :
    analyze_transaction none tx = .noResult := by
  unfold analyze_transaction
  simp [h]

/-- C4 witness: the amended statement at the concrete relevant transaction. -/
theorem claim_C4_fetch_failure_silent_witness :
    analyze_transaction none relevantTx = .noResult :=
  claim_C4_fetch_failure_silent relevantTx (by decide)

/-- Modelled from the spec: program-identifier resolution that "must account for
addresses introduced via on-chain address-lookup tables, not only the transaction's
static address list" — identical to `instructionMatches` except that it resolves
over the lookup-table-extended key list. -/
def instructionMatchesWithLookups (m : DecodedMessage) (ix : CompiledInstruction) : Bool :=
  match m.account_keys.get? ix.program_id_index with
  | none => false
  | some pid =>
    if pid = MARINADE_PROGRAM_KEY then
      if 8 ≤ ix.data.length then
        let ix_discriminator := ix.data.take 8
        ix_discriminator = DEPOSIT_DISCRIMINATOR
          || STATE_MODIFYING_DISCRIMINATORS.contains ix_discriminator
      else false
    else false

/-- Modelled from the spec: the classifier as the spec describes it, resolving
program ids over static keys extended by loaded lookup-table addresses. -/
def does_tx_affect_msol_value_with_lookups (tx : EncodedConfirmedTx) : Bool :=
  match tx.decoded with
  | none => false
  | some dtx => dtx.message.instructions.any (instructionMatchesWithLookups dtx.message)

/-- C6 counterexample: a transaction whose Marinade-program address is reachable only
through the loaded lookup-table addresses is relevant under the spec's resolution but
is NOT recognized by the code, which resolves against the static keys alone. -/
theorem claim_C6_counterexample :
    does_tx_affect_msol_value_with_lookups lookupTx = true ∧
    does_tx_affect_msol_value lookupTx = false := by
  decide

/-- C6 amended: classification never consults the loaded lookup-table addresses —
the result is invariant under replacing them arbitrarily. -/
theorem claim_C6_static_keys_only (sigs : List String) (static l1 l2 : List PubkeyStr)
    (ixs : List CompiledInstruction) (bt : Option Int) :
    does_tx_affect_msol_value ⟨some ⟨sigs, ⟨static, l1, ixs⟩⟩, bt⟩ =
      does_tx_affect_msol_value ⟨some ⟨sigs, ⟨static, l2, ixs⟩⟩, bt⟩ := rfl

/-- The digest always has 32 bytes. -/
theorem sha256_length (msg : List Nat) : (sha256 msg).length = 32 := by
  simp [sha256, natToBytesBE]

/-- C7: the tag of a name is the first 8 bytes of the SHA-256 digest of its UTF-8
bytes, always exactly 8 bytes long, and the derivation is deterministic. -/
theorem claim_C7_tag_derivation :
    (∀ name : String, get_instruction_discriminator name = (sha256 (utf8Bytes name)).take 8) ∧
    (∀ name : String, (get_instruction_discriminator name).length = 8) ∧
    (∀ a b : String, a = b → get_instruction_discriminator a = get_instruction_discriminator b) := by
  refine ⟨fun _ => rfl, fun name => ?_, fun a b h => h ▸ rfl⟩
  unfold get_instruction_discriminator
  rw [List.length_take, sha256_length]
  decide

/-- C7 witness: all three parts instantiated at the name "claim". -/
theorem claim_C7_tag_derivation_witness :
    get_instruction_discriminator "claim" = (sha256 (utf8Bytes "claim")).take 8 ∧
    (get_instruction_discriminator "claim").length = 8 ∧
    get_instruction_discriminator "claim" = get_instruction_discriminator "claim" :=
  ⟨claim_C7_tag_derivation.1 "claim", claim_C7_tag_derivation.2.1 "claim",
   claim_C7_tag_derivation.2.2 "claim" "claim" rfl⟩

/-- C9 counterexample: a concrete successful run fills `platform_program_pubkey`
with the STATE-account address, which differs from the Marinade program address the
claim requires. -/
theorem claim_C9_counterexample :
    analyze_transaction (some exactState) relevantTx =
      .snapshot ⟨5, 2, MSOL_MINT_PUBKEY, MARINADE_STATE_PUBKEY, [SOL_MINT_PUBKEY], [140]⟩ ∧
    MARINADE_STATE_PUBKEY ≠ MARINADE_PROGRAM_KEY := by
  decide

/-- C9 amended: every snapshot `analyze_transaction` produces carries the fixed
state-account address in `platform_program_pubkey`, the mSOL mint as token id, and
singleton, index-aligned mint/amount lists ([SOL], [backing amount]). -/
theorem claim_C9_snapshot_fields (fetched : Option MarinadeState) (tx : EncodedConfirmedTx)
    (m : MintUnderlying) (h : analyze_transaction fetched tx = .snapshot m) :
    m.platform_program_pubkey = MARINADE_STATE_PUBKEY ∧
    m.mint_pubkey = MSOL_MINT_PUBKEY ∧
    m.mints = [SOL_MINT_PUBKEY] ∧
    m.mints.length = 1 ∧ m.total_underlying_amounts.length = 1 := by
  unfold analyze_transaction at h
  split at h
  · split at h
    · cases h
    · split at h
      · cases h
      · split at h
        · cases h
        · split at h
          · cases h
          · cases h
            simp
  · cases h

/-- C9 witness: the amended statement at a concrete produced snapshot. -/
theorem claim_C9_snapshot_fields_witness :
    (⟨5, 2, MSOL_MINT_PUBKEY, MARINADE_STATE_PUBKEY, [SOL_MINT_PUBKEY], [140]⟩
        : MintUnderlying).platform_program_pubkey = MARINADE_STATE_PUBKEY ∧
    (⟨5, 2, MSOL_MINT_PUBKEY, MARINADE_STATE_PUBKEY, [SOL_MINT_PUBKEY], [140]⟩
        : MintUnderlying).mint_pubkey = MSOL_MINT_PUBKEY ∧
    (⟨5, 2, MSOL_MINT_PUBKEY, MARINADE_STATE_PUBKEY, [SOL_MINT_PUBKEY], [140]⟩
        : MintUnderlying).mints = [SOL_MINT_PUBKEY] ∧
    (⟨5, 2, MSOL_MINT_PUBKEY, MARINADE_STATE_PUBKEY, [SOL_MINT_PUBKEY], [140]⟩
        : MintUnderlying).mints.length = 1 ∧
    (⟨5, 2, MSOL_MINT_PUBKEY, MARINADE_STATE_PUBKEY, [SOL_MINT_PUBKEY], [140]⟩
        : MintUnderlying).total_underlying_amounts.length = 1 :=
  claim_C9_snapshot_fields (some exactState) relevantTx _ (by decide)

end MarinadeValueParser
